import Mathlib

/-
  Shallow embedding of the RISC-V dual-stage interrupt pipeline and SMP IPI
  layer: the IPI multiplexer (pending-mask drain loop, out-of-band sends,
  virq-range registration), the cross-CPU stop and crash-stop operations,
  the virtual interrupt-flag primitives, the pipelined stage-entry
  dispatcher, and the hartid lookup and timer-register snapshot helpers.

  Machine integers are modelled as Nat, with explicit reduction modulo
  2 ^ 32 where C unsigned-int wraparound matters.  Per-CPU and global
  mutable state is passed explicitly.  Loops are embedded with an explicit
  fuel argument equal to the bound the C code enforces, so that every
  definition is executable by kernel reduction.
-/

/-! ## Common bit and cpumask helpers -/

/-- Width constant for C unsigned int arithmetic. -/
def U32 : Nat := 2 ^ 32

/-- clear_bit: clear bit i of mask m (atomic clear_bit in the source,
modelled sequentially on the owning value). -/
def clear_bit (i m : Nat) : Nat := m - (m &&& (1 <<< i))

/-- Fuel-driven least-set-bit scan: index of the lowest set bit of n
(second argument), with fuel (first argument) at least n. -/
def lsbIdxAux : Nat → Nat → Nat
  | 0, _ => 0
  | f + 1, n => if n % 2 = 1 then 0 else lsbIdxAux f (n / 2) + 1

/-- ffs(n) - 1 for n nonzero: index of the least significant set bit. -/
def ffs_minus_one (n : Nat) : Nat := lsbIdxAux n n

/-- Fuel-driven population count of the second argument, with fuel at
least the value itself. -/
def popcountAux : Nat → Nat → Nat
  | 0, _ => 0
  | f + 1, n => if n = 0 then 0 else n % 2 + popcountAux f (n / 2)

/-- num_online_cpus: number of set bits of the online cpumask. -/
def num_online_cpus (mask : Nat) : Nat := popcountAux mask mask

/-! ## Logical IPI reasons (enum ipi_message_type) -/

def IPI_RESCHEDULE : Nat := 0
def IPI_CALL_FUNC : Nat := 1
def IPI_CPU_STOP : Nat := 2
def IPI_CPU_CRASH_STOP : Nat := 3
def IPI_IRQ_WORK : Nat := 4
def IPI_TIMER : Nat := 5
def IPI_MAX : Nat := 6

/-! ## The in-band IPI decode path: __handle_IPI and handle_IPI -/

/-- Collaborator entry points that __handle_IPI can dispatch to.  The
default arm of the switch logs an unhandled-IPI warning carrying the
decoded (possibly negative) reason. -/
inductive IpiHandlerCall where
  | schedulerIpi
  | genericSmpCallFunction
  | ipiStop
  | ipiCpuCrashStop
  | irqWorkRun
  | tickReceiveBroadcast
  | unhandledWarn (ipi : Int)
  deriving DecidableEq

/-- __handle_IPI from the source: computes ipi = irq - ipi_virq_base as a
signed int and switches on it; the IPI_TIMER case exists only when
CONFIG_GENERIC_CLOCKEVENTS_BROADCAST (bcast) is enabled. -/
def __handle_IPI (bcast : Bool) (ipi_virq_base : Int) (irq : Int) : IpiHandlerCall :=
  let ipi : Int := irq - ipi_virq_base
  if ipi = 0 then .schedulerIpi
  else if ipi = 1 then .genericSmpCallFunction
  else if ipi = 2 then .ipiStop
  else if ipi = 3 then .ipiCpuCrashStop
  else if ipi = 4 then .irqWorkRun
  else if ipi = 5 then (if bcast then .tickReceiveBroadcast else .unhandledWarn ipi)
  else .unhandledWarn ipi

/-- Result of one run of the pipelined handle_IPI on one CPU: the final
pending mask, the per-reason delivery counters, and the ordered list of
collaborator calls made. -/
structure IpiDrainResult where
  mask : Nat
  counts : Nat → Nat
  calls : List IpiHandlerCall

/-- The drain loop of the pipelined handle_IPI: while the pending mask is
nonzero, take ipinr = ffs(mask) - 1, clear that bit, increment the
per-CPU counter for ipinr, and call __handle_IPI(ipinr, data).  Fuel is
the initial mask value, which bounds the number of set bits. -/
def handle_IPI_loop (bcast : Bool) (base : Int) : Nat → Nat → (Nat → Nat) → IpiDrainResult
  | 0, mask, counts => { mask := mask, counts := counts, calls := [] }
  | f + 1, mask, counts =>
    if mask = 0 then { mask := mask, counts := counts, calls := [] }
    else
      let ipinr := ffs_minus_one mask
      let mask2 := clear_bit ipinr mask
      let counts2 := fun j => if j = ipinr then counts j + 1 else counts j
      let rest := handle_IPI_loop bcast base f mask2 counts2
      { mask := rest.mask
        counts := rest.counts
        calls := __handle_IPI bcast base (ipinr : Int) :: rest.calls }

/-- handle_IPI under CONFIG_IRQ_PIPELINE, acting on the per-CPU
ipi_messages mask and ipi_counts array; base is the registered
ipi_virq_base at the time the handler runs. -/
def handle_IPI (bcast : Bool) (base : Int) (mask : Nat) (counts : Nat → Nat) : IpiDrainResult :=
  handle_IPI_loop bcast base mask mask counts

/-! ## Out-of-band IPI send: irq_send_oob_ipi -/

def OOB_NR_IPI : Nat := 3
def OOB_IPI_OFFSET : Nat := 1

/-- The unsigned int op = irq - ipi_virq_base computation, modulo 2^32. -/
def oob_op (base irq : Nat) : Nat := (irq % U32 + (U32 - base % U32)) % U32

/-- Outcome of irq_send_oob_ipi: whether WARN_ON fired, and which
descriptor index (if any) the physical raise __send_ipi_mask used. -/
structure OobSendResult where
  warned : Bool
  delivered : Option Nat
  deriving DecidableEq

/-- irq_send_oob_ipi from the source: op = irq - ipi_virq_base as
unsigned int; WARN_ON(irq_pipeline_debug() && out-of-window) returns
early only when the debug conjunct is enabled; otherwise the line for op
is raised for the target mask. -/
def irq_send_oob_ipi (debug : Bool) (base irq : Nat) : OobSendResult :=
  let op := oob_op base irq
  if debug = true ∧ (op < OOB_IPI_OFFSET ∨ OOB_IPI_OFFSET + OOB_NR_IPI ≤ op) then
    { warned := true, delivered := none }
  else
    { warned := false, delivered := some op }

/-! ## IPI virq-range registration: riscv_ipi_set_virq_range -/

/-- Registration-visible state of the IPI layer: the base and count
(ipi_virq_base, nr_ipi) of the registered window, the descriptor table
ipi_desc, the lines requested with the in-band handler, the lines
enabled on the boot CPU, the lines marked IRQ_HIDDEN, the rfence static
key, and a count of WARN diagnostics emitted. -/
structure IpiState where
  ipi_virq_base : Nat
  nr_ipi : Nat
  ipi_desc : List (Option Nat)
  requested : List Nat
  enabled : List Nat
  hidden : List Nat
  rfenceKey : Bool
  warns : Nat
  deriving DecidableEq

/-- Static initial state of the registration globals: ipi_virq_base = 0,
nr_ipi = IPI_MAX, an empty descriptor table, nothing requested, enabled
or hidden. -/
def ipiInitState : IpiState :=
  { ipi_virq_base := 0
    nr_ipi := IPI_MAX
    ipi_desc := List.replicate IPI_MAX none
    requested := []
    enabled := []
    hidden := []
    rfenceKey := false
    warns := 0 }

/-- riscv_ipi_enable from the source: WARN_ON_ONCE and bail out when no
range is registered, otherwise enable the per-CPU lines
ipi_virq_base .. ipi_virq_base + nr_ipi - 1. -/
def riscv_ipi_enable (s : IpiState) : IpiState :=
  if s.ipi_virq_base = 0 then { s with warns := s.warns + 1 }
  else { s with enabled := s.enabled ++ (List.range s.nr_ipi).map (fun i => s.ipi_virq_base + i) }

/-- riscv_ipi_set_virq_range from the source: reject (warn, no-op) when a
range is already registered; warn when nr < IPI_MAX but proceed with
nr_ipi = min nr IPI_MAX; request the in-band handler on the first
inband_nr_ipi lines (1 when pipelined, nr_ipi otherwise), fill the
descriptor table, mark every line hidden, enable the lines on the boot
CPU, and set the rfence key from the flag. -/
def riscv_ipi_set_virq_range (pipelined : Bool) (s : IpiState)
    (virq nr : Nat) (use_for_rfence : Bool) : IpiState :=
  if s.ipi_virq_base ≠ 0 then { s with warns := s.warns + 1 }
  else
    let w1 := if nr < IPI_MAX then 1 else 0
    let nrI := min nr IPI_MAX
    let inband := if pipelined then 1 else nrI
    let s1 : IpiState :=
      { s with
        warns := s.warns + w1
        nr_ipi := nrI
        ipi_virq_base := virq
        requested := s.requested ++ (List.range (min inband nrI)).map (fun i => virq + i)
        ipi_desc := (List.range IPI_MAX).map
          (fun i => if i < nrI then some (virq + i) else s.ipi_desc.getD i none)
        hidden := s.hidden ++ (List.range nrI).map (fun i => virq + i) }
    let s2 := riscv_ipi_enable s1
    { s2 with rfenceKey := use_for_rfence }

/-! ## Virtual interrupt-flag primitives (asm/irq_pipeline.h) -/

def RISCV_STATUS_SIE_BIT : Nat := 1
def RISCV_STATUS_MIE_BIT : Nat := 3

/-- RISCV_STATUS_IE_BIT: MIE bit under CONFIG_RISCV_M_MODE, SIE bit
otherwise. -/
def RISCV_STATUS_IE_BIT (mMode : Bool) : Nat :=
  if mMode then RISCV_STATUS_MIE_BIT else RISCV_STATUS_SIE_BIT

/-- arch_irqs_virtual_to_native_flags from the source:
(!stalled) << RISCV_STATUS_IE_BIT. -/
def arch_irqs_virtual_to_native_flags (mMode : Bool) (stalled : Bool) : Nat :=
  (if stalled then 0 else 1) <<< RISCV_STATUS_IE_BIT mMode

/-- Modelled from the spec: native_irqs_disabled_flags is not under src;
per the spec it derives hardware-disabled status from the real hardware
enable bit of the flags word. -/
def native_irqs_disabled_flags (mMode : Bool) (flags : Nat) : Bool :=
  flags &&& (1 <<< RISCV_STATUS_IE_BIT mMode) == 0

/-- arch_irqs_disabled_flags from the source: defers to
native_irqs_disabled_flags. -/
def arch_irqs_disabled_flags (mMode : Bool) (flags : Nat) : Bool :=
  native_irqs_disabled_flags mMode flags

/-- Modelled from the spec: inband_irq_save is not under src; per the
spec the save primitive returns the current virtual flag state and
leaves it unchanged.  State is the per-CPU stall flag. -/
def inband_irq_save (s : Bool) : Bool × Bool := (s, s)

/-- Modelled from the spec: inband_irq_disable sets the virtual flag to
stalled. -/
def inband_irq_disable (_ : Bool) : Bool := true

/-- Modelled from the spec: inband_irq_enable clears the virtual flag. -/
def inband_irq_enable (_ : Bool) : Bool := false

/-- Modelled from the spec: inband_irq_restore sets the flag to exactly
the given state. -/
def inband_irq_restore (st : Bool) (_ : Bool) : Bool := st

/-- arch_local_irq_save from the source: capture the stall state via
inband_irq_save and encode it as native flags. -/
def arch_local_irq_save (mMode : Bool) (s : Bool) : Nat × Bool :=
  let r := inband_irq_save s
  (arch_irqs_virtual_to_native_flags mMode r.1, r.2)

/-- arch_local_irq_enable from the source. -/
def arch_local_irq_enable (s : Bool) : Bool := inband_irq_enable s

/-- arch_local_irq_disable from the source. -/
def arch_local_irq_disable (s : Bool) : Bool := inband_irq_disable s

/-- arch_local_irq_restore from the source: decode the flags word with
arch_irqs_disabled_flags and hand the boolean to inband_irq_restore. -/
def arch_local_irq_restore (mMode : Bool) (flags : Nat) (s : Bool) : Bool :=
  inband_irq_restore (arch_irqs_disabled_flags mMode flags) s

/-- An intervening operation between a save and the matching restore. -/
inductive IrqOp where
  | enable
  | disable
  deriving DecidableEq

/-- Run a sequence of arch_local_irq_enable / arch_local_irq_disable
calls on the stall flag. -/
def runIrqOps : List IrqOp → Bool → Bool
  | [], s => s
  | IrqOp.enable :: t, s => runIrqOps t (arch_local_irq_enable s)
  | IrqOp.disable :: t, s => runIrqOps t (arch_local_irq_disable s)

/-! ## Stage entry dispatcher: arch_do_IRQ_pipelined -/

def IRQENTRY_INBAND_UNSTALLED : Nat := 0

/-- irqentry_state_t as initialized and mutated by pipeline_enter_rcu. -/
structure IrqentryState where
  exit_rcu : Bool
  stage_info : Nat
  deriving DecidableEq

/-- Observable collaborator events of one dispatcher run. -/
inductive RcuEvent where
  | ctIrqEnter
  | ctIrqExit
  | tickCheck
  | setRegs (p : Nat)
  | handleDesc (d : Nat)
  deriving DecidableEq

def isCtIrqEnter : RcuEvent → Bool
  | RcuEvent.ctIrqEnter => true
  | _ => false

def isCtIrqExit : RcuEvent → Bool
  | RcuEvent.ctIrqExit => true
  | _ => false

def isTickCheck : RcuEvent → Bool
  | RcuEvent.tickCheck => true
  | _ => false

/-- pipeline_enter_rcu from the source: when not CONFIG_TINY_RCU and the
current task is the idle task, perform ct_irq_enter (start watching) and
record exit_rcu; otherwise only run the tick-accounting check. -/
def pipeline_enter_rcu (tinyRcu idleTask : Bool) : IrqentryState × List RcuEvent :=
  if !tinyRcu && idleTask then
    ({ exit_rcu := true, stage_info := IRQENTRY_INBAND_UNSTALLED }, [RcuEvent.ctIrqEnter])
  else
    ({ exit_rcu := false, stage_info := IRQENTRY_INBAND_UNSTALLED }, [RcuEvent.tickCheck])

/-- pipeline_exit_rcu from the source: ct_irq_exit exactly when exit_rcu
was recorded. -/
def pipeline_exit_rcu (st : IrqentryState) : List RcuEvent :=
  if st.exit_rcu then [RcuEvent.ctIrqExit] else []

/-- set_irq_regs: install a new active register-frame pointer and return
the previous one.  Result is (old pointer, new current pointer). -/
def set_irq_regs (newp cur : Nat) : Nat × Nat := (cur, newp)

/-- arch_do_IRQ_pipelined from the source: enter the rcu bookkeeping,
install the per-CPU tick_regs frame (saving the old pointer), run the
generic descriptor handler, restore the old pointer, and exit the rcu
bookkeeping.  Returns the final active frame pointer and the event
trace. -/
def arch_do_IRQ_pipelined (tinyRcu idleTask : Bool)
    (curRegs tickRegs desc : Nat) : Nat × List RcuEvent :=
  let st_ev := pipeline_enter_rcu tinyRcu idleTask
  let oldCur := set_irq_regs tickRegs curRegs
  let fin := set_irq_regs oldCur.1 oldCur.2
  (fin.2,
    st_ev.2 ++ [RcuEvent.setRegs tickRegs, RcuEvent.handleDesc desc, RcuEvent.setRegs oldCur.1]
      ++ pipeline_exit_rcu st_ev.1)

/-! ## Cross-CPU stop operations -/

def USEC_PER_SEC : Nat := 1000000

/-- The smp_send_stop wait loop: while num_online_cpus() > 1 and the
timeout budget (fuel) is not exhausted, delay one microsecond.  The
oracle obs gives the online cpumask after k microsecond delays; the
second argument counts delays performed so far.  Returns the total
number of delays. -/
def stopLoop (obs : Nat → Nat) : Nat → Nat → Nat
  | 0, k => k
  | f + 1, k => if 1 < num_online_cpus (obs k) then stopLoop obs f (k + 1) else k

/-- Outcome of smp_send_stop: the broadcast mask (if any), the number of
one-microsecond polling steps performed, and the warning payload (the
online cpumask at timeout) if the warning was logged. -/
structure StopResult where
  sent : Option Nat
  steps : Nat
  warned : Option Nat
  deriving DecidableEq

/-- smp_send_stop from the source: when more than one CPU is online,
broadcast IPI_CPU_STOP to the online mask minus self; then busy-wait up
to USEC_PER_SEC microsecond steps for the online count to drop to one,
and warn with the online mask if it is still above one. -/
def smp_send_stop (obs : Nat → Nat) (cur : Nat) : StopResult :=
  let sent := if 1 < num_online_cpus (obs 0) then some (clear_bit cur (obs 0)) else none
  let steps := stopLoop obs USEC_PER_SEC 0
  let warned := if 1 < num_online_cpus (obs steps) then some (obs steps) else none
  { sent := sent, steps := steps, warned := warned }

/-- Global state visible to crash_smp_send_stop: the one-shot guard, the
waiting_for_crash_ipi countdown, the log of crash-stop broadcast masks,
the online cpumask, and the current CPU. -/
structure CrashState where
  cpusStopped : Bool
  waiting : Int
  broadcasts : List Nat
  online : Nat
  cur : Nat
  deriving DecidableEq

/-- num_other_online_cpus from the source: online count minus one when
the current CPU is itself online. -/
def num_other_online_cpus (s : CrashState) : Nat :=
  num_online_cpus s.online - (if s.online.testBit s.cur then 1 else 0)

/-- crash_smp_send_stop from the source: return at once when the
one-shot guard is set; latch the guard; back out when no other CPU is
online; otherwise seed the countdown with the number of other online
CPUs and broadcast IPI_CPU_CRASH_STOP to the online mask minus self.
The subsequent bounded busy-wait only reads the atomic countdown and
delays, so it mutates none of the modelled state. -/
def crash_smp_send_stop (s : CrashState) : CrashState :=
  if s.cpusStopped then s
  else
    let s1 : CrashState := { s with cpusStopped := true }
    if num_other_online_cpus s1 = 0 then s1
    else
      { s1 with
        waiting := (num_other_online_cpus s1 : Int)
        broadcasts := s1.broadcasts ++ [clear_bit s1.cur s1.online] }

/-! ## Hartid lookup and the timer-register snapshot -/

def ENOENT : Nat := 2

/-- INVALID_HARTID is ULONG_MAX on rv64. -/
def INVALID_HARTID : Nat := 2 ^ 64 - 1

/-- Static initializer of __cpuid_to_hartid_map: every entry is
INVALID_HARTID. -/
def __cpuid_to_hartid_map_init : Nat → Nat := fun _ => INVALID_HARTID

/-- The scan loop of riscv_hartid_to_cpuid: try indices i, i+1, ... for
fuel steps, returning the first index whose map entry equals hartid, or
-ENOENT. -/
def hartidSearch (map : Nat → Nat) (hartid : Nat) : Nat → Nat → Int
  | 0, _ => -(ENOENT : Int)
  | f + 1, i => if map i = hartid then (i : Int) else hartidSearch map hartid f (i + 1)

/-- riscv_hartid_to_cpuid from the source: scan logical CPUs
0 .. NR_CPUS - 1 for the first map entry equal to hartid, returning
-ENOENT when none matches. -/
def riscv_hartid_to_cpuid (nrCpus : Nat) (map : Nat → Nat) (hartid : Nat) : Int :=
  hartidSearch map hartid nrCpus 0

/-- The RISC-V pt_regs frame. -/
structure PtRegs where
  epc : Nat
  ra : Nat
  sp : Nat
  gp : Nat
  tp : Nat
  t0 : Nat
  t1 : Nat
  t2 : Nat
  s0 : Nat
  s1 : Nat
  a0 : Nat
  a1 : Nat
  a2 : Nat
  a3 : Nat
  a4 : Nat
  a5 : Nat
  a6 : Nat
  a7 : Nat
  s2 : Nat
  s3 : Nat
  s4 : Nat
  s5 : Nat
  s6 : Nat
  s7 : Nat
  s8 : Nat
  s9 : Nat
  s10 : Nat
  s11 : Nat
  t3 : Nat
  t4 : Nat
  t5 : Nat
  t6 : Nat
  status : Nat
  badaddr : Nat
  cause : Nat
  orig_a0 : Nat
  deriving DecidableEq

/-- arch_save_timer_regs from the source: field-by-field copy from src
into dst of every pt_regs member the source lists (t6 is absent from
that list).  The result pair is the final memory content of (dst, src);
the body contains no store through src. -/
def arch_save_timer_regs (dst src : PtRegs) : PtRegs × PtRegs :=
  ({ dst with
      epc := src.epc
      ra := src.ra
      sp := src.sp
      gp := src.gp
      tp := src.tp
      t0 := src.t0
      t1 := src.t1
      t2 := src.t2
      s0 := src.s0
      s1 := src.s1
      a0 := src.a0
      a1 := src.a1
      a2 := src.a2
      a3 := src.a3
      a4 := src.a4
      a5 := src.a5
      a6 := src.a6
      a7 := src.a7
      s2 := src.s2
      s3 := src.s3
      s4 := src.s4
      s5 := src.s5
      s6 := src.s6
      s7 := src.s7
      s8 := src.s8
      s9 := src.s9
      s10 := src.s10
      s11 := src.s11
      t3 := src.t3
      t4 := src.t4
      t5 := src.t5
      status := src.status
      badaddr := src.badaddr
      cause := src.cause
      orig_a0 := src.orig_a0 }, src)

/-! ## Theorems -/

/-- Helper: a call on an already-registered state only emits a warning. -/
theorem set_virq_range_already_registered (p rf : Bool) (s : IpiState) (virq nr : Nat)
    (h : s.ipi_virq_base ≠ 0) :
    riscv_ipi_set_virq_range p s virq nr rf = { s with warns := s.warns + 1 } := by
  simp [riscv_ipi_set_virq_range, h]

/-- Helper: full effect of a first registration call on a fresh state. -/
theorem set_virq_range_fresh (p rf : Bool) (s : IpiState) (virq nr : Nat)
    (h0 : s.ipi_virq_base = 0) (h1 : virq ≠ 0) :
    riscv_ipi_set_virq_range p s virq nr rf =
      { ipi_virq_base := virq
        nr_ipi := min nr IPI_MAX
        ipi_desc := (List.range IPI_MAX).map
          (fun i => if i < min nr IPI_MAX then some (virq + i) else s.ipi_desc.getD i none)
        requested := s.requested ++
          (List.range (min (if p then 1 else min nr IPI_MAX) (min nr IPI_MAX))).map
            (fun i => virq + i)
        enabled := s.enabled ++ (List.range (min nr IPI_MAX)).map (fun i => virq + i)
        hidden := s.hidden ++ (List.range (min nr IPI_MAX)).map (fun i => virq + i)
        rfenceKey := rf
        warns := s.warns + (if nr < IPI_MAX then 1 else 0) } := by
  simp [riscv_ipi_set_virq_range, riscv_ipi_enable, h0, h1]

/-- C5 (confirmed): the virtual-flag encoding round-trips, so for every
captured state s and any sequence of intervening enable and disable
calls, arch_local_irq_restore of the flags returned by
arch_local_irq_save puts the stall flag back to exactly the value it had
at the capture, under both the M-mode and S-mode IE-bit choices. -/
theorem arch_local_irq_save_restore_roundtrip (mMode s : Bool) (ops : List IrqOp) :
    arch_local_irq_restore mMode (arch_local_irq_save mMode s).1
      (runIrqOps ops (arch_local_irq_save mMode s).2) = s
    ∧ ∀ stalled : Bool,
        arch_irqs_disabled_flags mMode (arch_irqs_virtual_to_native_flags mMode stalled)
          = stalled := by
  constructor
  · cases mMode <;> cases s <;> rfl
  · intro stalled; cases mMode <;> cases stalled <;> rfl

/-- C10 (confirmed): arch_save_timer_regs copies every listed pt_regs
field from src to dst, leaves src untouched, and does not copy t6: the
destination keeps its old t6 value. -/
theorem arch_save_timer_regs_spec (dst src : PtRegs) :
    (arch_save_timer_regs dst src).1.epc = src.epc
    ∧ (arch_save_timer_regs dst src).1.ra = src.ra
    ∧ (arch_save_timer_regs dst src).1.sp = src.sp
    ∧ (arch_save_timer_regs dst src).1.gp = src.gp
    ∧ (arch_save_timer_regs dst src).1.tp = src.tp
    ∧ (arch_save_timer_regs dst src).1.t0 = src.t0
    ∧ (arch_save_timer_regs dst src).1.t1 = src.t1
    ∧ (arch_save_timer_regs dst src).1.t2 = src.t2
    ∧ (arch_save_timer_regs dst src).1.t3 = src.t3
    ∧ (arch_save_timer_regs dst src).1.t4 = src.t4
    ∧ (arch_save_timer_regs dst src).1.t5 = src.t5
    ∧ (arch_save_timer_regs dst src).1.s0 = src.s0
    ∧ (arch_save_timer_regs dst src).1.s1 = src.s1
    ∧ (arch_save_timer_regs dst src).1.s2 = src.s2
    ∧ (arch_save_timer_regs dst src).1.s3 = src.s3
    ∧ (arch_save_timer_regs dst src).1.s4 = src.s4
    ∧ (arch_save_timer_regs dst src).1.s5 = src.s5
    ∧ (arch_save_timer_regs dst src).1.s6 = src.s6
    ∧ (arch_save_timer_regs dst src).1.s7 = src.s7
    ∧ (arch_save_timer_regs dst src).1.s8 = src.s8
    ∧ (arch_save_timer_regs dst src).1.s9 = src.s9
    ∧ (arch_save_timer_regs dst src).1.s10 = src.s10
    ∧ (arch_save_timer_regs dst src).1.s11 = src.s11
    ∧ (arch_save_timer_regs dst src).1.a0 = src.a0
    ∧ (arch_save_timer_regs dst src).1.a1 = src.a1
    ∧ (arch_save_timer_regs dst src).1.a2 = src.a2
    ∧ (arch_save_timer_regs dst src).1.a3 = src.a3
    ∧ (arch_save_timer_regs dst src).1.a4 = src.a4
    ∧ (arch_save_timer_regs dst src).1.a5 = src.a5
    ∧ (arch_save_timer_regs dst src).1.a6 = src.a6
    ∧ (arch_save_timer_regs dst src).1.a7 = src.a7
    ∧ (arch_save_timer_regs dst src).1.status = src.status
    ∧ (arch_save_timer_regs dst src).1.badaddr = src.badaddr
    ∧ (arch_save_timer_regs dst src).1.cause = src.cause
    ∧ (arch_save_timer_regs dst src).1.orig_a0 = src.orig_a0
    ∧ (arch_save_timer_regs dst src).1.t6 = dst.t6
    ∧ (arch_save_timer_regs dst src).2 = src :=
  ⟨rfl, rfl, rfl, rfl, rfl, rfl, rfl, rfl, rfl, rfl, rfl, rfl, rfl, rfl, rfl, rfl, rfl, rfl,
   rfl, rfl, rfl, rfl, rfl, rfl, rfl, rfl, rfl, rfl, rfl, rfl, rfl, rfl, rfl, rfl, rfl, rfl,
   rfl⟩

/-- C1 (code_bug): evaluating the pipelined handle_IPI at the failing
input of a registered base of 10 and a pending mask with only the
reschedule bit set.  The loop drains the mask and increments the
reschedule counter exactly once, but the dispatch passes the raw bit
index to __handle_IPI, which subtracts ipi_virq_base again and lands in
the unhandled-IPI warning branch with reason -10, instead of calling the
scheduler entry point as the claim (and the comment in the source)
require. -/
theorem handle_IPI_pipelined_wrong_dispatch :
    (handle_IPI true 10 1 (fun _ => 0)).mask = 0
    ∧ (handle_IPI true 10 1 (fun _ => 0)).counts 0 = 1
    ∧ (handle_IPI true 10 1 (fun _ => 0)).counts 1 = 0
    ∧ (handle_IPI true 10 1 (fun _ => 0)).calls = [IpiHandlerCall.unhandledWarn (-10)]
    ∧ (handle_IPI true 10 1 (fun _ => 0)).calls ≠ [IpiHandlerCall.schedulerIpi] := by
  refine ⟨rfl, rfl, rfl, rfl, by decide⟩

/-- C2 (counterexample): with pipeline debugging disabled (a production
build), an out-of-window send (irq equal to the base, so op = 0, below
OOB_IPI_OFFSET) emits no warning and the delivery is attempted anyway,
contradicting the claim that production builds warn and drop it. -/
theorem irq_send_oob_ipi_prod_counterexample :
    (irq_send_oob_ipi false 2 2).warned = false
    ∧ (irq_send_oob_ipi false 2 2).delivered = some 0
    ∧ oob_op 2 2 < OOB_IPI_OFFSET := by
  refine ⟨rfl, rfl, by decide⟩

/-- C2 (amended, theorem): the range check runs only when pipeline
debugging is enabled: a debug build warns and drops an out-of-window
send, a non-debug build performs no check and always raises the line for
the computed op, and an in-window send is always delivered with no
warning. -/
theorem irq_send_oob_ipi_range_spec (debug : Bool) (base irq : Nat) :
    (debug = true →
      (oob_op base irq < OOB_IPI_OFFSET ∨ OOB_IPI_OFFSET + OOB_NR_IPI ≤ oob_op base irq) →
      (irq_send_oob_ipi debug base irq).warned = true
      ∧ (irq_send_oob_ipi debug base irq).delivered = none)
    ∧ (debug = false →
      (irq_send_oob_ipi debug base irq).warned = false
      ∧ (irq_send_oob_ipi debug base irq).delivered = some (oob_op base irq))
    ∧ (OOB_IPI_OFFSET ≤ oob_op base irq → oob_op base irq < OOB_IPI_OFFSET + OOB_NR_IPI →
      (irq_send_oob_ipi debug base irq).warned = false
      ∧ (irq_send_oob_ipi debug base irq).delivered = some (oob_op base irq)) := by
  refine ⟨?_, ?_, ?_⟩
  · intro hd hr
    simp [irq_send_oob_ipi, hd, hr]
  · intro hd
    simp [irq_send_oob_ipi, hd]
  · intro h1 h2
    have hno : ¬(debug = true ∧
        (oob_op base irq < OOB_IPI_OFFSET ∨ OOB_IPI_OFFSET + OOB_NR_IPI ≤ oob_op base irq)) := by
      rintro ⟨-, h | h⟩ <;> omega
    simp [irq_send_oob_ipi, hno]

/-- C2 (witness): the amended theorem applied at concrete inputs: a
debug build dropping op 0, a production build delivering op 0, and a
debug build delivering the in-window op 1. -/
theorem irq_send_oob_ipi_range_spec_witness :
    ((irq_send_oob_ipi true 2 2).warned = true ∧ (irq_send_oob_ipi true 2 2).delivered = none)
    ∧ ((irq_send_oob_ipi false 2 2).warned = false
        ∧ (irq_send_oob_ipi false 2 2).delivered = some (oob_op 2 2))
    ∧ ((irq_send_oob_ipi true 2 3).warned = false
        ∧ (irq_send_oob_ipi true 2 3).delivered = some (oob_op 2 3)) :=
  ⟨(irq_send_oob_ipi_range_spec true 2 2).1 rfl (Or.inl (by decide)),
   (irq_send_oob_ipi_range_spec false 2 2).2.1 rfl,
   (irq_send_oob_ipi_range_spec true 2 3).2.2 (by decide) (by decide)⟩

/-- C3 (counterexample): calling the registration entry point on the
fresh state with nr = 3 < IPI_MAX is not aborted: the base changes and
lines are requested, contradicting the claim that the call is a no-op
with no lines requested. -/
theorem set_virq_range_short_nr_counterexample :
    (riscv_ipi_set_virq_range true ipiInitState 10 3 false).ipi_virq_base
        ≠ ipiInitState.ipi_virq_base
    ∧ (riscv_ipi_set_virq_range true ipiInitState 10 3 false).requested
        ≠ ipiInitState.requested
    ∧ (riscv_ipi_set_virq_range true ipiInitState 10 3 false).nr_ipi = 3
    ∧ (riscv_ipi_set_virq_range true ipiInitState 10 3 false).warns
        = ipiInitState.warns + 1 := by
  refine ⟨by decide, by decide, by decide, by decide⟩

/-- C3 (amended, theorem): registering with nr < IPI_MAX on a fresh
state emits exactly one warning but proceeds: nr_ipi is clamped to
min nr IPI_MAX = nr, ipi_virq_base becomes virq, the in-band handler is
requested on one line when pipelined (on all nr otherwise), and all nr
lines are enabled. -/
theorem set_virq_range_short_nr_spec (p rf : Bool) (s : IpiState) (virq nr : Nat)
    (h0 : s.ipi_virq_base = 0) (h1 : virq ≠ 0) (h2 : nr < IPI_MAX) (h3 : 0 < nr) :
    (riscv_ipi_set_virq_range p s virq nr rf).warns = s.warns + 1
    ∧ (riscv_ipi_set_virq_range p s virq nr rf).ipi_virq_base = virq
    ∧ (riscv_ipi_set_virq_range p s virq nr rf).nr_ipi = nr
    ∧ (riscv_ipi_set_virq_range p s virq nr rf).requested =
        s.requested ++ (List.range (if p then 1 else nr)).map (fun i => virq + i)
    ∧ (riscv_ipi_set_virq_range p s virq nr rf).enabled =
        s.enabled ++ (List.range nr).map (fun i => virq + i) := by
  have hmin : min nr IPI_MAX = nr := Nat.min_eq_left (Nat.le_of_lt h2)
  rw [set_virq_range_fresh p rf s virq nr h0 h1]
  refine ⟨by simp [h2], rfl, by simp [hmin], ?_, by simp [hmin]⟩
  cases p
  · simp [hmin]
  · simp [hmin, Nat.min_eq_left h3]

/-- C3 (witness): the amended theorem applied at the fresh state with
virq = 10, nr = 3, pipelined. -/
theorem set_virq_range_short_nr_spec_witness :
    (riscv_ipi_set_virq_range true ipiInitState 10 3 false).warns = ipiInitState.warns + 1
    ∧ (riscv_ipi_set_virq_range true ipiInitState 10 3 false).ipi_virq_base = 10
    ∧ (riscv_ipi_set_virq_range true ipiInitState 10 3 false).nr_ipi = 3
    ∧ (riscv_ipi_set_virq_range true ipiInitState 10 3 false).requested =
        ipiInitState.requested ++ (List.range (if true then 1 else 3)).map (fun i => 10 + i)
    ∧ (riscv_ipi_set_virq_range true ipiInitState 10 3 false).enabled =
        ipiInitState.enabled ++ (List.range 3).map (fun i => 10 + i) :=
  set_virq_range_short_nr_spec true false ipiInitState 10 3 rfl (by decide) (by decide)
    (by decide)

/-- C4 (confirmed): after a first successful registration (fresh state,
nonzero virq), any second call is rejected: it only increments the
warning count, and the base, nr_ipi, descriptor table, requested,
enabled and hidden lines and the rfence key all stay exactly what the
first call established. -/
theorem set_virq_range_second_call_noop (p rf rf2 : Bool) (s : IpiState)
    (virq nr virq2 nr2 : Nat) (h0 : s.ipi_virq_base = 0) (h1 : virq ≠ 0) :
    riscv_ipi_set_virq_range p (riscv_ipi_set_virq_range p s virq nr rf) virq2 nr2 rf2 =
      { riscv_ipi_set_virq_range p s virq nr rf with
          warns := (riscv_ipi_set_virq_range p s virq nr rf).warns + 1 } := by
  apply set_virq_range_already_registered
  rw [set_virq_range_fresh p rf s virq nr h0 h1]
  simpa using h1

/-- C4 (witness): the second-call theorem applied at the fresh state
with virq = 10, nr = 6, then a second call with virq = 20. -/
theorem set_virq_range_second_call_noop_witness :
    riscv_ipi_set_virq_range true (riscv_ipi_set_virq_range true ipiInitState 10 6 false)
        20 6 true =
      { riscv_ipi_set_virq_range true ipiInitState 10 6 false with
          warns := (riscv_ipi_set_virq_range true ipiInitState 10 6 false).warns + 1 } :=
  set_virq_range_second_call_noop true false true ipiInitState 10 6 20 6 rfl (by decide)

/-- C6 (confirmed): for every run of the stage-entry dispatcher, a start
watching transition (ct_irq_enter) happens exactly when the tracker was
stopped with the CPU idle (not CONFIG_TINY_RCU and the idle task is
current), otherwise exactly one tick-accounting check happens; each
start has exactly one matching ct_irq_exit in the trace; and the
previous register-frame pointer is installed around the generic
descriptor handler and restored by the end of the run. -/
theorem arch_do_IRQ_pipelined_spec (tinyRcu idleTask : Bool) (curRegs tickRegs desc : Nat) :
    (arch_do_IRQ_pipelined tinyRcu idleTask curRegs tickRegs desc).1 = curRegs
    ∧ (arch_do_IRQ_pipelined tinyRcu idleTask curRegs tickRegs desc).2.countP isCtIrqEnter
        = (if !tinyRcu && idleTask then 1 else 0)
    ∧ (arch_do_IRQ_pipelined tinyRcu idleTask curRegs tickRegs desc).2.countP isCtIrqExit
        = (if !tinyRcu && idleTask then 1 else 0)
    ∧ (arch_do_IRQ_pipelined tinyRcu idleTask curRegs tickRegs desc).2.countP isTickCheck
        = (if !tinyRcu && idleTask then 0 else 1)
    ∧ ∃ pre post, (arch_do_IRQ_pipelined tinyRcu idleTask curRegs tickRegs desc).2 =
        pre ++ [RcuEvent.setRegs tickRegs, RcuEvent.handleDesc desc, RcuEvent.setRegs curRegs]
          ++ post := by
  cases tinyRcu <;> cases idleTask <;>
    refine ⟨rfl, rfl, rfl, rfl, ?_⟩ <;>
    first
      | exact ⟨[RcuEvent.ctIrqEnter], [RcuEvent.ctIrqExit], rfl⟩
      | exact ⟨[RcuEvent.tickCheck], [], rfl⟩

/-- C7 (confirmed): crash_smp_send_stop latches its one-shot guard, so a
second invocation is the identity on the whole state (no re-broadcast,
no countdown reset); a call with the guard already set returns at once;
with no other CPU online the call latches the guard but neither seeds
the countdown nor broadcasts; otherwise it seeds the countdown with the
number of other online CPUs and broadcasts exactly one crash-stop to the
online mask minus itself. -/
theorem num_other_online_cpus_guard (s : CrashState) (b : Bool) :
    num_other_online_cpus { s with cpusStopped := b } = num_other_online_cpus s := rfl

theorem crash_smp_send_stop_spec (s : CrashState) :
    crash_smp_send_stop (crash_smp_send_stop s) = crash_smp_send_stop s
    ∧ (s.cpusStopped = true → crash_smp_send_stop s = s)
    ∧ (s.cpusStopped = false → num_other_online_cpus s = 0 →
        (crash_smp_send_stop s).waiting = s.waiting
        ∧ (crash_smp_send_stop s).broadcasts = s.broadcasts
        ∧ (crash_smp_send_stop s).cpusStopped = true)
    ∧ (s.cpusStopped = false → num_other_online_cpus s ≠ 0 →
        (crash_smp_send_stop s).broadcasts = s.broadcasts ++ [clear_bit s.cur s.online]
        ∧ (crash_smp_send_stop s).waiting = (num_other_online_cpus s : Int)) := by
  have hguard : (crash_smp_send_stop s).cpusStopped = true := by
    by_cases h : s.cpusStopped = true
    · simp [crash_smp_send_stop, h]
    · have h2 : s.cpusStopped = false := by revert h; cases s.cpusStopped <;> simp
      by_cases h0 : num_other_online_cpus s = 0
      · simp [crash_smp_send_stop, h2, num_other_online_cpus_guard, h0]
      · simp [crash_smp_send_stop, h2, num_other_online_cpus_guard, h0]
  refine ⟨?_, ?_, ?_, ?_⟩
  · conv_lhs => rw [crash_smp_send_stop]
    simp [hguard]
  · intro h
    simp [crash_smp_send_stop, h]
  · intro h h0
    refine ⟨?_, ?_, hguard⟩ <;>
      simp [crash_smp_send_stop, h, num_other_online_cpus_guard, h0]
  · intro h h0
    refine ⟨?_, ?_⟩ <;>
      simp [crash_smp_send_stop, h, num_other_online_cpus_guard, h0]

/-- C7 (witness): the crash-stop theorem applied to a concrete state
with two online CPUs and then to one with the current CPU alone
online. -/
theorem crash_smp_send_stop_spec_witness :
    crash_smp_send_stop (crash_smp_send_stop (CrashState.mk false 0 [] 3 0)) =
      crash_smp_send_stop (CrashState.mk false 0 [] 3 0)
    ∧ (crash_smp_send_stop (CrashState.mk false 0 [] 3 0)).broadcasts = [] ++ [clear_bit 0 3]
    ∧ (crash_smp_send_stop (CrashState.mk false 0 [] 3 0)).waiting =
        (num_other_online_cpus (CrashState.mk false 0 [] 3 0) : Int)
    ∧ (crash_smp_send_stop (CrashState.mk false 5 [] 1 0)).waiting =
        (CrashState.mk false 5 [] 1 0).waiting
    ∧ (crash_smp_send_stop (CrashState.mk false 5 [] 1 0)).broadcasts =
        (CrashState.mk false 5 [] 1 0).broadcasts :=
  ⟨(crash_smp_send_stop_spec (CrashState.mk false 0 [] 3 0)).1,
   ((crash_smp_send_stop_spec (CrashState.mk false 0 [] 3 0)).2.2.2 rfl (by decide)).1,
   ((crash_smp_send_stop_spec (CrashState.mk false 0 [] 3 0)).2.2.2 rfl (by decide)).2,
   ((crash_smp_send_stop_spec (CrashState.mk false 5 [] 1 0)).2.2.1 rfl (by decide)).1,
   ((crash_smp_send_stop_spec (CrashState.mk false 5 [] 1 0)).2.2.1 rfl (by decide)).2.1⟩

/-- Helper: the stop wait loop performs at most fuel polling steps. -/
theorem stopLoop_le (obs : Nat → Nat) : ∀ f k, stopLoop obs f k ≤ k + f := by
  intro f
  induction f with
  | zero => intro k; simp [stopLoop]
  | succ f ih =>
    intro k
    rw [stopLoop]
    split
    · have := ih (k + 1)
      omega
    · omega

/-- Helper: at loop exit either the online count has dropped to one or
the whole fuel budget was used. -/
theorem stopLoop_exit (obs : Nat → Nat) : ∀ f k,
    num_online_cpus (obs (stopLoop obs f k)) ≤ 1 ∨ stopLoop obs f k = k + f := by
  intro f
  induction f with
  | zero => intro k; right; simp [stopLoop]
  | succ f ih =>
    intro k
    rw [stopLoop]
    split
    · rcases ih (k + 1) with h | h
      · left; exact h
      · right; omega
    · rename_i h
      left
      simp only [not_lt] at h
      exact h
  
/-- Helper: the loop never runs past an index where the online count has
already dropped to one. -/
theorem stopLoop_early (obs : Nat → Nat) : ∀ f k j, k ≤ j → num_online_cpus (obs j) ≤ 1 →
    stopLoop obs f k ≤ j := by
  intro f
  induction f with
  | zero => intro k j hk _; simpa [stopLoop] using hk
  | succ f ih =>
    intro k j hk hj
    rw [stopLoop]
    split
    · rename_i h
      have hne : k ≠ j := by
        rintro rfl
        omega
      exact ih (k + 1) j (by omega) hj
    · exact hk

/-- C8 (confirmed): smp_send_stop never waits more than USEC_PER_SEC
one-microsecond polling steps; the warning (carrying the online mask) is
only logged when the full timeout was used; whenever the online count
drops to one before the budget is exhausted, the loop exits early with
no warning; the stop broadcast to the other online CPUs happens exactly
when more than one CPU was online at entry; and conversely, whenever
more than one CPU is still online at the post-loop check, the warning
listing the online mask IS logged and the full timeout budget was
used. -/
theorem smp_send_stop_spec (obs : Nat → Nat) (cur : Nat) :
    (smp_send_stop obs cur).steps ≤ USEC_PER_SEC
    ∧ ((smp_send_stop obs cur).warned.isSome = true →
        (smp_send_stop obs cur).steps = USEC_PER_SEC
        ∧ (smp_send_stop obs cur).warned = some (obs (smp_send_stop obs cur).steps))
    ∧ (∀ j, j < USEC_PER_SEC → num_online_cpus (obs j) ≤ 1 →
        (smp_send_stop obs cur).steps ≤ j ∧ (smp_send_stop obs cur).warned = none)
    ∧ (1 < num_online_cpus (obs 0) →
        (smp_send_stop obs cur).sent = some (clear_bit cur (obs 0)))
    ∧ (num_online_cpus (obs 0) ≤ 1 → (smp_send_stop obs cur).sent = none)
    ∧ (1 < num_online_cpus (obs (smp_send_stop obs cur).steps) →
        (smp_send_stop obs cur).warned = some (obs (smp_send_stop obs cur).steps)
        ∧ (smp_send_stop obs cur).steps = USEC_PER_SEC) := by
  refine ⟨?_, ?_, ?_, ?_, ?_, ?_⟩
  · simpa [smp_send_stop] using stopLoop_le obs USEC_PER_SEC 0
  · intro hw
    simp only [smp_send_stop] at hw ⊢
    by_cases hc : 1 < num_online_cpus (obs (stopLoop obs USEC_PER_SEC 0))
    · rcases stopLoop_exit obs USEC_PER_SEC 0 with h | h
      · omega
      · have hc2 : 1 < num_online_cpus (obs USEC_PER_SEC) := by
          rw [h] at hc
          simpa using hc
        simp [hc, hc2, h]
    · simp [hc] at hw
  · intro j hj hdrop
    have hle : stopLoop obs USEC_PER_SEC 0 ≤ j :=
      stopLoop_early obs USEC_PER_SEC 0 j (Nat.zero_le j) hdrop
    have hexit : num_online_cpus (obs (stopLoop obs USEC_PER_SEC 0)) ≤ 1 := by
      rcases stopLoop_exit obs USEC_PER_SEC 0 with h | h
      · exact h
      · omega
    constructor
    · simpa [smp_send_stop] using hle
    · simp [smp_send_stop, Nat.not_lt.mpr hexit]
  · intro h
    simp [smp_send_stop, h]
  · intro h
    simp [smp_send_stop, Nat.not_lt.mpr h]
  · intro h
    simp only [smp_send_stop] at h ⊢
    have hfull : stopLoop obs USEC_PER_SEC 0 = USEC_PER_SEC := by
      rcases stopLoop_exit obs USEC_PER_SEC 0 with hx | hx
      · omega
      · omega
    exact ⟨by simp [h], hfull⟩

/-- C8 (witness): the stop theorem applied to an oracle in which only
one CPU is ever online (the loop exits immediately with no warning and
no broadcast) and to an oracle in which two CPUs stay online forever
(the warning carrying the online mask is logged after the full timeout
budget). -/
theorem smp_send_stop_spec_witness :
    (smp_send_stop (fun _ => 1) 0).steps ≤ 0
    ∧ (smp_send_stop (fun _ => 1) 0).warned = none
    ∧ (smp_send_stop (fun _ => 1) 0).sent = none
    ∧ (smp_send_stop (fun _ => 3) 0).warned = some 3
    ∧ (smp_send_stop (fun _ => 3) 0).steps = USEC_PER_SEC :=
  ⟨((smp_send_stop_spec (fun _ => 1) 0).2.2.1 0 (by decide) (by decide)).1,
   ((smp_send_stop_spec (fun _ => 1) 0).2.2.1 0 (by decide) (by decide)).2,
   (smp_send_stop_spec (fun _ => 1) 0).2.2.2.2.1 (by decide),
   ((smp_send_stop_spec (fun _ => 3) 0).2.2.2.2.2 (by decide)).1,
   ((smp_send_stop_spec (fun _ => 3) 0).2.2.2.2.2 (by decide)).2⟩

/-- Helper: the hartid scan returns the first matching index. -/
theorem hartidSearch_hit (map : Nat → Nat) (hartid : Nat) :
    ∀ f i k, k < f → map (i + k) = hartid → (∀ j, j < k → map (i + j) ≠ hartid) →
      hartidSearch map hartid f i = ((i + k : Nat) : Int) := by
  intro f
  induction f with
  | zero => intro i k hk; exact absurd hk (Nat.not_lt_zero k)
  | succ f ih =>
    intro i k hk hm hmin
    rw [hartidSearch]
    by_cases h0 : map i = hartid
    · have hk0 : k = 0 := by
        by_contra hne
        exact hmin 0 (Nat.pos_of_ne_zero hne) (by simpa using h0)
      simp [h0, hk0]
    · have hkne : k ≠ 0 := by
        rintro rfl
        exact h0 (by simpa using hm)
      rcases Nat.exists_eq_succ_of_ne_zero hkne with ⟨k2, rfl⟩
      rw [if_neg h0]
      have hrec := ih (i + 1) k2 (by omega)
        (by rw [show i + 1 + k2 = i + (k2 + 1) by omega]; exact hm)
        (fun j hj => by
          rw [show i + 1 + j = i + (j + 1) by omega]
          exact hmin (j + 1) (by omega))
      rw [hrec]
      exact congrArg Int.ofNat (by omega)

/-- Helper: the hartid scan returns -ENOENT when nothing matches. -/
theorem hartidSearch_miss (map : Nat → Nat) (hartid : Nat) :
    ∀ f i, (∀ j, j < f → map (i + j) ≠ hartid) →
      hartidSearch map hartid f i = -(ENOENT : Int) := by
  intro f
  induction f with
  | zero => intro i _; rfl
  | succ f ih =>
    intro i h
    rw [hartidSearch, if_neg (by simpa using h 0 (Nat.succ_pos f))]
    exact ih (i + 1) (fun j hj => by
      rw [show i + 1 + j = i + (j + 1) by omega]
      exact h (j + 1) (by omega))

/-- C9 (confirmed): riscv_hartid_to_cpuid returns the smallest logical
CPU index below NR_CPUS whose map entry equals the hartid, and returns
-ENOENT when no index matches; every entry of the static map initializer
is INVALID_HARTID. -/
theorem riscv_hartid_to_cpuid_spec (nrCpus : Nat) (map : Nat → Nat) (hartid : Nat) :
    (∀ i, i < nrCpus → map i = hartid → (∀ j, j < i → map j ≠ hartid) →
        riscv_hartid_to_cpuid nrCpus map hartid = (i : Int))
    ∧ ((∀ i, i < nrCpus → map i ≠ hartid) →
        riscv_hartid_to_cpuid nrCpus map hartid = -(ENOENT : Int))
    ∧ (∀ i, __cpuid_to_hartid_map_init i = INVALID_HARTID) := by
  refine ⟨?_, ?_, fun _ => rfl⟩
  · intro i hi hm hmin
    have h := hartidSearch_hit map hartid nrCpus 0 i hi (by simpa using hm)
      (fun j hj => by simpa using hmin j hj)
    simpa [riscv_hartid_to_cpuid] using h
  · intro h
    exact hartidSearch_miss map hartid nrCpus 0 (fun j hj => by simpa using h j hj)

/-- C9 (witness): the lookup theorem applied to a concrete four-entry
map: hartid 55 is mapped at index 1 and found there, hartid 77 is
unmapped and yields -ENOENT. -/
theorem riscv_hartid_to_cpuid_spec_witness :
    riscv_hartid_to_cpuid 4 (fun i => if i = 1 then 55 else INVALID_HARTID) 55 = ((1 : Nat) : Int)
    ∧ riscv_hartid_to_cpuid 4 (fun i => if i = 1 then 55 else INVALID_HARTID) 77
        = -(ENOENT : Int) := by
  constructor
  · exact (riscv_hartid_to_cpuid_spec 4 (fun i => if i = 1 then 55 else INVALID_HARTID) 55).1
      1 (by decide) (by decide)
      (fun j hj => by
        have hj0 : j = 0 := by omega
        subst hj0
        decide)
  · exact (riscv_hartid_to_cpuid_spec 4 (fun i => if i = 1 then 55 else INVALID_HARTID) 77).2.1
      (fun i hi => by
        interval_cases i <;> decide)
